import Mathlib

/-!
Verification of the RoleVerse turn-resolution pipeline (src/main.py).

The relevant handlers and helpers of `main.py` are shallowly embedded as
pure Lean functions.  External effects are made explicit:

* the DeepSeek model client (`get_ai_response`) is an oracle: each model
  response consumed by a handler is a parameter of the embedded function
  (the handler in the source makes exactly as many model calls as the
  embedding takes response parameters);
* the session store is represented by the list of `(key, session)` writes a
  handler performs (`storeWrites`), and the session a handler read is an
  explicit `Option UserSession` argument;
* `random.random() * 100` is an explicit rational `roll` parameter;
* wall-clock time (`datetime.now()` as used by `update_activity` and the
  session constructors) is an explicit `now : Nat` parameter; the textual
  ISO rendering of timestamps is out of scope and timestamps are kept
  abstract as naturals;
* Python string primitives used by the code (`str.upper`, `str.strip`,
  `in`, `str.replace`, `str.split`, `re.search` for the two directive
  patterns) are modelled character-exactly below, including the Cyrillic
  case range the game's working language needs.
-/

namespace RoleVerse

/-- Python `\s` whitespace characters (ASCII range, as used by `str.strip`
and the `\s*` in the directive regexes). -/
def pySpaceChars : List Char := [' ', '\t', '\n', '\r', '\x0b', '\x0c']

def isPySpace (c : Char) : Bool := pySpaceChars.contains c

/-- Python `str.strip()` on a character list: drop whitespace from both ends. -/
def pyStripList (cs : List Char) : List Char :=
  ((cs.dropWhile isPySpace).reverse.dropWhile isPySpace).reverse

/-- Python `str.strip()`. -/
def pyStrip (s : String) : String := ⟨pyStripList s.data⟩

/-- Python `str.upper` restricted to the alphabets the code manipulates:
ASCII letters and the Russian Cyrillic block (а..я and ё).  Other
characters are unchanged. -/
def pyUpperChar (c : Char) : Char :=
  if 'a' ≤ c ∧ c ≤ 'z' then Char.ofNat (c.toNat - 32)
  else if 'а' ≤ c ∧ c ≤ 'я' then Char.ofNat (c.toNat - 32)
  else if c = 'ё' then 'Ё'
  else c

def pyUpper (s : String) : String := ⟨s.data.map pyUpperChar⟩

/-- Python `str.lower` on the same alphabets (used for `re.IGNORECASE`
keyword matching). -/
def pyLowerChar (c : Char) : Char :=
  if 'A' ≤ c ∧ c ≤ 'Z' then Char.ofNat (c.toNat + 32)
  else if 'А' ≤ c ∧ c ≤ 'Я' then Char.ofNat (c.toNat + 32)
  else if c = 'Ё' then 'ё'
  else c

/-- `leadsWith pat l` : `pat` is an initial segment of `l`. -/
def leadsWith : List Char → List Char → Bool
  | [], _ => true
  | _ :: _, [] => false
  | a :: as, b :: bs => a = b && leadsWith as bs

/-- Occurrence of `needle` as a contiguous segment of `hay`
(Python `needle in hay` for strings). -/
def hasSegment (needle : List Char) : List Char → Bool
  | [] => leadsWith needle []
  | c :: cs => leadsWith needle (c :: cs) || hasSegment needle cs

/-- Python substring test `needle in hay`. -/
def strContains (hay needle : String) : Bool := hasSegment needle.data hay.data

/-- Python `hay.replace(old, new="")`: delete every non-overlapping
occurrence of `old`, scanning left to right.  Implemented with explicit
fuel; `listReplace` supplies enough fuel to process the whole list. -/
def listReplaceAux (old : List Char) : Nat → List Char → List Char
  | 0, s => s
  | _ + 1, [] => []
  | fuel + 1, c :: cs =>
    if old ≠ [] ∧ leadsWith old (c :: cs) then
      listReplaceAux old fuel ((c :: cs).drop old.length)
    else c :: listReplaceAux old fuel cs

def listReplace (old s : List Char) : List Char :=
  listReplaceAux old (s.length + 1) s

/-- Python `str.split(sep=",")` on a character list; `""` splits to `[""]`. -/
def splitOnComma : List Char → List (List Char)
  | [] => [[]]
  | c :: cs =>
    match splitOnComma cs with
    | [] => [[c]]
    | g :: gs => if c = ',' then [] :: g :: gs else (c :: g) :: gs

/-! ## Data model (`SaveData`, `UserSession`) -/

/-- `SaveData` (main.py lines 60-87): the raw field record.  Validators are
modelled separately by `SaveData.validated`, since the source constructs
`SaveData(**data)` and pydantic may reject the record. -/
structure SaveData where
  user_id : String
  character : Option String := none
  inventory : List String := []
  health : Int := 100
  stats : List (String × Int) := []
  abilities : List (String × Bool) := []
  world_context : String := ""
  game_over : Bool := false
  last_active : Nat := 0
deriving Repr, DecidableEq

/-- `UserSession` (main.py lines 90-104).  `created_at` is omitted (never
read by any handler); `last_active` is an abstract timestamp. -/
structure UserSession where
  user_id : String
  character : Option String := none
  inventory : List String := []
  health : Int := 100
  stats : List (String × Int) := []
  abilities : List (String × Bool) := []
  messages : List (String × String) := []
  world_context : String := ""
  -- source field name `universe` (a Lean keyword)
  universeId : Option String := none
  ruleset : Option String := none
  game_over : Bool := false
  last_active : Nat := 0
deriving Repr, DecidableEq

/-- The character class removed by `SaveData.validate_inventory`
(`re.sub(r'[<>{};]', '', item)`). -/
def badChars : List Char := ['<', '>', '\x7b', '\x7d', ';']

/-- One inventory item after `validate_inventory`'s cleaning:
remove the unsafe characters, then truncate to 50 characters
(`re.sub(r'[<>{};]', '', item)[:50]`). -/
def cleanItem (item : String) : String :=
  ⟨(item.data.filter (fun c => ¬ badChars.contains c)).take 50⟩

/-- `SaveData.validate_stats` (main.py 72-76) as a boolean:
all values within `[0, 20]`. -/
def validate_stats (stats : List (String × Int)) : Bool :=
  stats.all (fun p => decide (0 ≤ p.2) && decide (p.2 ≤ 20))

/-- Pydantic validation of a raw `SaveData` record, as the source's
`SaveData(**data)` performs it: the `health` field constraint
(`ge=0, le=100`), the `validate_stats` validator, and the
`validate_inventory` validator (reject items longer than 100 characters,
otherwise strip unsafe characters and truncate to 50).  Pydantic collects
per-field errors; here the checks run sequentially, which agrees on
acceptance/rejection (a record fails iff some check fails). -/
def SaveData.validated (raw : SaveData) : Except String SaveData :=
  if raw.inventory.any (fun item => item.length > 100) then
    Except.error "Item name too long"
  else if ¬ (0 ≤ raw.health ∧ raw.health ≤ 100) then
    Except.error "health out of range"
  else if ¬ validate_stats raw.stats then
    Except.error "Stats must be between 0 and 20"
  else
    Except.ok { raw with inventory := raw.inventory.map cleanItem }

/-- `UserSession.to_save_data` (main.py 106-118): build the `SaveData`
record from the session's fields; constructing `SaveData(...)` runs the
validators, which may raise (modelled by `Except.error`). -/
def UserSession.to_save_data (s : UserSession) : Except String SaveData :=
  SaveData.validated
    { user_id := s.user_id
      character := s.character
      inventory := s.inventory
      health := s.health
      stats := s.stats
      abilities := s.abilities
      world_context := s.world_context
      game_over := s.game_over
      last_active := s.last_active }

/-- The `UserSession(...)` constructed by `load_game` (main.py 775-784)
from a validated save: messages, universe and ruleset are not passed, so
they take their declared defaults (`[]`, `None`, `None`). -/
def mkSessionFromSave (user_id : String) (sd : SaveData) (now : Nat) : UserSession :=
  { user_id := user_id
    character := sd.character
    inventory := sd.inventory
    health := sd.health
    stats := sd.stats
    abilities := sd.abilities
    messages := []
    world_context := sd.world_context
    universeId := none
    ruleset := none
    game_over := sd.game_over
    last_active := now }

deriving instance DecidableEq for Except

/-- Result of the `/api/load-game` handler: either an HTTP 400 rejection
(`Except.error`) or the created session, together with the session-store
writes performed. -/
structure LoadRet where
  result : Except String UserSession
  storeWrites : List (String × UserSession)
deriving Repr, DecidableEq

/-- `load_game` (main.py 761-798): validate the inbound record via the
`SaveData` constructor; on failure raise HTTP 400 and write nothing; on
success build a fresh session from the save and store it. -/
def load_game (user_id : String) (raw : SaveData) (now : Nat) : LoadRet :=
  match SaveData.validated raw with
  | Except.error e =>
    ⟨Except.error ("Некорректные данные сохранения: " ++ e), []⟩
  | Except.ok sd =>
    let s := mkSessionFromSave user_id sd now
    ⟨Except.ok s, [(user_id, s)]⟩

/-! ## The `/api/action` handler (`perform_action`, main.py 654-738) -/

/-- The handler's possible responses.  The cosmetic markdown block
(`formatted_result`, which embeds the same narration, chance and roll with
fixed decoration) is elided; the structured payload fields are kept. -/
inductive ActionResponse where
  | httpError (status : Nat) (detail : String)
  | gameOverResponse (message : String)
  | validationRejected (message : String)
  | committed (success : Bool) (chance roll : ℚ) (outcome narration : String)
      (inventory : List String) (health : Int)
deriving Repr, DecidableEq

/-- Result of one `/api/action` call: the response, the session object as
the handler leaves it (`none` when no session was found), and the
session-store writes performed. -/
structure ActionRet where
  response : ActionResponse
  session : Option UserSession
  storeWrites : List (String × UserSession)
deriving Repr, DecidableEq

/-- The affirmative token the validation step looks for
(`if "ДА" not in validation_response.upper()`). -/
def affirmativeToken : String := "ДА"

/-- The fixed game-over message (main.py 672). -/
def gameOverMessage : String := "Игра окончена. Начните новую игру."

/-- The `prompt_for_outcome` string built at main.py 712-717. -/
def outcomePrompt (action outcome : String) : String :=
  "Игрок совершил действие: \x27" ++ action ++ "\x27.\n\n" ++
  "Это действие было " ++ pyUpper outcome ++ "ОМ.\n\n" ++
  "Опиши подробный исход этого действия, исходя из результата (" ++
  outcome ++ "). Будь красочным и атмосферным (3-4 предложения)."

/-- `perform_action` (main.py 654-738).

Parameters beyond the request data: `sessionOpt` is the store's answer to
`session_store.get(user_id)`; `validationResp` is the model's reply to the
`validate_action_logic` prompt; `narrationResp` is the model's reply to
the outcome prompt; `roll` is `random.random() * 100 ∈ [0, 100)`;
`now` is the time `update_activity` stamps.

Control flow, in source order: reject empty/over-500-character actions
with HTTP 400; HTTP 404 when the session is absent; the game-over guard;
the validation step (any reply whose uppercase form does not contain
`"ДА"` is returned verbatim as a rejection, with no state change and no
store write); otherwise `difficulty = 5` is assigned (and never used),
`success_chance = 50.0`, the roll decides success, the outcome prompt and
the narration are appended to message history, and the session is
persisted.  Inventory, stats, abilities, health, world_context are not
touched. -/
def perform_action (now : Nat) (sessionOpt : Option UserSession) (action : String)
    (validationResp narrationResp : String) (roll : ℚ) : ActionRet :=
  if action = "" ∨ action.length > 500 then
    ⟨ActionResponse.httpError 400 "Действие слишком длинное или пустое", sessionOpt, []⟩
  else
    match sessionOpt with
    | none => ⟨ActionResponse.httpError 404 "Сессия не найдена", none, []⟩
    | some session =>
      if session.game_over then
        ⟨ActionResponse.gameOverResponse gameOverMessage, some session, []⟩
      else
        let validation := pyStrip validationResp
        if strContains (pyUpper validation) affirmativeToken = false then
          ⟨ActionResponse.validationRejected validation, some session, []⟩
        else
          -- difficulty = 5 is assigned in the source and never used
          let success_chance : ℚ := 50
          let is_success : Bool := decide (roll < success_chance)
          let outcome : String := if is_success then "успех" else "неудача"
          let s1 : UserSession :=
            { session with
              messages := session.messages ++
                [("user", outcomePrompt action outcome), ("assistant", narrationResp)]
              last_active := now }
          ⟨ActionResponse.committed is_success success_chance roll outcome narrationResp
              s1.inventory s1.health,
            some s1, [(s1.user_id, s1)]⟩

/-! ## Character-creation finalization (main.py 640-651) -/

/-- The fallback world context (`story.strip() or "..."`, main.py 649). -/
def defaultWorldContext : String := "Новый мир только начинает свою историю."

/-- `_finalize_character_creation` (main.py 640-651): set character,
inventory, stats, abilities, reset message history to the story, set
world_context to the stripped story (or the fallback when it strips to
empty), stamp activity, store the session.  Returns the updated session
and the store writes. -/
def finalizeCharacterCreation (session : UserSession) (character_prompt story : String)
    (items_to_add : List String) (stats : List (String × Int))
    (abilities : List (String × Bool)) (now : Nat) : UserSession × List (String × UserSession) :=
  let s : UserSession :=
    { session with
      character := some character_prompt
      inventory := items_to_add
      stats := stats
      abilities := abilities
      messages := [("assistant", story)]
      world_context := if pyStrip story = "" then defaultWorldContext else pyStrip story
      last_active := now }
  (s, [(s.user_id, s)])

/-- The fresh session `/api/start-game` creates (main.py 473):
`UserSession(user_id=user_id)`, all other fields at their defaults. -/
def newSession (user_id : String) : UserSession := { user_id := user_id }

/-! ## Directive codec (main.py 596-619)

The two directive regexes are `INVENTORY_ADD:\s*(.+)` (IGNORECASE) and
`CHARACTER_DATA:\s*(.+)` (IGNORECASE | DOTALL), applied with `re.search`.
`tailMatch` models `\s*(.+)` at a fixed position, including the
backtracking `re` performs when the remainder is all whitespace:
group 1 must be non-empty, `.` excludes newlines unless DOTALL, and `\s*`
is greedy but gives characters back so that `(.+)` can match. -/

/-- Match `\s*(.+)` against `rest`; return `(consumed, group1)` where
`consumed` is the full span matched (whitespace plus group 1). -/
def tailMatch (dotall : Bool) (rest : List Char) : Option (List Char × List Char) :=
  let w := rest.takeWhile isPySpace
  let r2 := rest.drop w.length
  if dotall then
    match r2 with
    | _ :: _ => some (rest, r2)
    | [] =>
      -- rest is all whitespace: backtrack so `.+` takes the final character
      match rest.getLast? with
      | some c => some (rest, [c])
      | none => none
  else
    match r2 with
    | _ :: _ => let g := r2.takeWhile (fun c => c ≠ '\n'); some (w ++ g, g)
    | [] =>
      -- all whitespace: `.+` matches the last character that is not a newline
      match rest.reverse.dropWhile (fun c => c = '\n') with
      | [] => none
      | c :: cs => some ((c :: cs).reverse, [c])

/-- `re.search` for `KEYWORD\s*(.+)`: scan left to right for the first
position where the case-insensitive keyword plus a matching tail occurs;
return `(group0, group1)`.  `kwLower` is the keyword already lowercased. -/
def searchDirective (kwLower : List Char) (dotall : Bool) : List Char → Option (List Char × List Char)
  | [] => none
  | c :: cs =>
    let t := c :: cs
    if (t.take kwLower.length).map pyLowerChar = kwLower then
      match tailMatch dotall (t.drop kwLower.length) with
      | some (consumed, g1) => some (t.take kwLower.length ++ consumed, g1)
      | none => searchDirective kwLower dotall cs
    else searchDirective kwLower dotall cs

def invKwLower : List Char := "inventory_add:".data

def charKwLower : List Char := "character_data:".data

/-- `process_inventory_command` (main.py 596-603): find the first
inventory directive; on a match, split its payload on commas and strip
each item, and return the text with the matched span removed
(`text.replace(match.group(0), "")`, then stripped) together with the
item list.  Without a match, return the text and no items. -/
def process_inventory_command (text : String) : String × List String :=
  match searchDirective invKwLower false text.data with
  | some (g0, g1) =>
    let items_string := pyStrip ⟨g1⟩
    let found_items := (splitOnComma items_string.data).map (fun cs => pyStrip ⟨cs⟩)
    let cleaned_text := pyStrip ⟨listReplace g0 text.data⟩
    (cleaned_text, found_items)
  | none => (text, [])

/-! ## JSON values and `parse_character_data_block` (main.py 605-614) -/

/-- JSON values as `json.loads` produces them (numbers as rationals). -/
inductive JVal where
  | jnull
  | jbool (b : Bool)
  | jnum (q : ℚ)
  | jstr (s : String)
  | jarr (elems : List JVal)
  | jobj (fields : List (String × JVal))
deriving Repr

/-- Python `dict.get(key, default)` on a JSON object's field list
(later duplicate keys override earlier ones, as in `json.loads`). -/
def jGet (fields : List (String × JVal)) (key : String) (default : JVal) : JVal :=
  match fields.reverse.find? (fun p => p.1 == key) with
  | some p => p.2
  | none => default

/-- `parse_character_data_block` (main.py 605-614), parameterized by the
JSON decoder `jsonLoads` standing for the stdlib `json.loads`
(`none` = the decoder raises `json.JSONDecodeError`).

On a directive match the payload is stripped and decoded; a decode
failure is caught and yields `({}, {})`.  When the decoded value is not
an object, `data.get(...)` raises `AttributeError`, which the
`except json.JSONDecodeError` clause does not catch — modelled by
returning `none`.  No match also yields `({}, {})`. -/
def parse_character_data_block (jsonLoads : String → Option JVal) (text : String) :
    Option (JVal × JVal) :=
  match searchDirective charKwLower true text.data with
  | some (_, g1) =>
    let data_string := pyStrip ⟨g1⟩
    match jsonLoads data_string with
    | none => some (JVal.jobj [], JVal.jobj [])
    | some (JVal.jobj fields) =>
      some (jGet fields "stats" (JVal.jobj []), jGet fields "abilities" (JVal.jobj []))
    | some _ => none
  | none => some (JVal.jobj [], JVal.jobj [])

/-! ## A concrete JSON decoder

`parse_character_data_block` is parameterized by the decoder standing for
the stdlib `json.loads`; the claims about it are proved for every decoder.
For concrete evaluation (witnesses) we supply a small executable decoder
for the JSON grammar: objects, arrays, strings with the standard escapes
(including `\uXXXX` with surrogate pairs; lone surrogates are rejected),
numbers as rationals, `true`/`false`/`null`. -/

def jsonWsChars : List Char := [' ', '\t', '\n', '\r']

def skipJsonWs (cs : List Char) : List Char :=
  cs.dropWhile (fun c => jsonWsChars.contains c)

def escChar : Char → Option Char
  | '"' => some '"'
  | '\\' => some '\\'
  | '/' => some '/'
  | 'b' => some '\x08'
  | 'f' => some '\x0c'
  | 'n' => some '\n'
  | 'r' => some '\r'
  | 't' => some '\t'
  | _ => none

def hexDigitVal (c : Char) : Option Nat :=
  if '0' ≤ c ∧ c ≤ '9' then some (c.toNat - 48)
  else if 'a' ≤ c ∧ c ≤ 'f' then some (c.toNat - 87)
  else if 'A' ≤ c ∧ c ≤ 'F' then some (c.toNat - 55)
  else none

def parseHex4 : List Char → Option (Nat × List Char)
  | a :: b :: c :: d :: r =>
    match hexDigitVal a, hexDigitVal b, hexDigitVal c, hexDigitVal d with
    | some x, some y, some z, some w => some (((x * 16 + y) * 16 + z) * 16 + w, r)
    | _, _, _, _ => none
  | _ => none

/-- JSON string body after the opening quote; returns the decoded
characters and the remainder after the closing quote. -/
def jpStrBody : Nat → List Char → Option (List Char × List Char)
  | 0, _ => none
  | fuel + 1, cs =>
    match cs with
    | [] => none
    | '"' :: r => some ([], r)
    | '\\' :: r =>
      match r with
      | [] => none
      | 'u' :: r2 =>
        match parseHex4 r2 with
        | none => none
        | some (n, r3) =>
          if 0xD800 ≤ n ∧ n ≤ 0xDBFF then
            match r3 with
            | '\\' :: 'u' :: r4 =>
              match parseHex4 r4 with
              | some (m, r5) =>
                if 0xDC00 ≤ m ∧ m ≤ 0xDFFF then
                  match jpStrBody fuel r5 with
                  | some (b, r6) =>
                    some (Char.ofNat (0x10000 + (n - 0xD800) * 0x400 + (m - 0xDC00)) :: b, r6)
                  | none => none
                else none
              | none => none
            | _ => none
          else if 0xDC00 ≤ n ∧ n ≤ 0xDFFF then none
          else
            match jpStrBody fuel r3 with
            | some (b, r4) => some (Char.ofNat n :: b, r4)
            | none => none
      | e :: r2 =>
        match escChar e with
        | none => none
        | some c2 =>
          match jpStrBody fuel r2 with
          | some (b, r3) => some (c2 :: b, r3)
          | none => none
    | c :: r =>
      if c.toNat < 0x20 then none
      else
        match jpStrBody fuel r with
        | some (b, r2) => some (c :: b, r2)
        | none => none

def spanDigits (cs : List Char) : List Char × List Char :=
  (cs.takeWhile Char.isDigit, cs.dropWhile Char.isDigit)

def digitsVal (ds : List Char) : Nat :=
  ds.foldl (fun a c => a * 10 + (c.toNat - 48)) 0

/-- A JSON number literal: `-? int frac? exp?`, yielding a rational. -/
def jpNum (cs0 : List Char) : Option (JVal × List Char) :=
  let signNeg : Bool := match cs0 with | '-' :: _ => true | _ => false
  let cs1 := if signNeg then cs0.drop 1 else cs0
  let (ds, cs2) := spanDigits cs1
  match ds with
  | [] => none
  | d0 :: drest =>
    if d0 = '0' ∧ drest ≠ [] then none
    else
      let fr : Option (List Char) × List Char :=
        match cs2 with
        | '.' :: r => let (f, r2) := spanDigits r; (some f, r2)
        | _ => (none, cs2)
      match fr with
      | (some [], _) => none
      | (fOpt, cs3) =>
        let fds := fOpt.getD []
        let ex : Option (Bool × List Char) × List Char :=
          match cs3 with
          | c :: r =>
            if c = 'e' ∨ c = 'E' then
              match r with
              | '+' :: r2 => let (e, r3) := spanDigits r2; (some (false, e), r3)
              | '-' :: r2 => let (e, r3) := spanDigits r2; (some (true, e), r3)
              | _ => let (e, r3) := spanDigits r; (some (false, e), r3)
            else (none, cs3)
          | [] => (none, cs3)
        match ex with
        | (some (_, []), _) => none
        | (eOpt, cs4) =>
          let eneg := (eOpt.map Prod.fst).getD false
          let eds := (eOpt.map Prod.snd).getD []
          let mantissa : ℤ := (digitsVal ds * 10 ^ fds.length + digitsVal fds : ℕ)
          let m : ℤ := if signNeg then -mantissa else mantissa
          let e10 : ℤ := (if eneg then -(digitsVal eds : ℤ) else (digitsVal eds : ℤ)) - fds.length
          some (JVal.jnum ((m : ℚ) * (10 : ℚ) ^ e10), cs4)

mutual

def jpVal : Nat → List Char → Option (JVal × List Char)
  | 0, _ => none
  | fuel + 1, cs0 =>
    match skipJsonWs cs0 with
    | [] => none
    | c :: rest =>
      if c = 'n' then
        if leadsWith "ull".data rest then some (JVal.jnull, rest.drop 3) else none
      else if c = 't' then
        if leadsWith "rue".data rest then some (JVal.jbool true, rest.drop 3) else none
      else if c = 'f' then
        if leadsWith "alse".data rest then some (JVal.jbool false, rest.drop 4) else none
      else if c = '"' then
        match jpStrBody (rest.length + 1) rest with
        | some (b, r) => some (JVal.jstr ⟨b⟩, r)
        | none => none
      else if c = '[' then
        match skipJsonWs rest with
        | ']' :: r => some (JVal.jarr [], r)
        | r => match jpItems fuel r with
               | some (xs, r2) => some (JVal.jarr xs, r2)
               | none => none
      else if c = '\x7b' then
        match skipJsonWs rest with
        | '\x7d' :: r => some (JVal.jobj [], r)
        | r => match jpFields fuel r with
               | some (fs, r2) => some (JVal.jobj fs, r2)
               | none => none
      else jpNum (c :: rest)

def jpItems : Nat → List Char → Option (List JVal × List Char)
  | 0, _ => none
  | fuel + 1, cs =>
    match jpVal fuel cs with
    | none => none
    | some (v, r) =>
      match skipJsonWs r with
      | ',' :: r2 =>
        match jpItems fuel r2 with
        | some (xs, r3) => some (v :: xs, r3)
        | none => none
      | ']' :: r2 => some ([v], r2)
      | _ => none

def jpFields : Nat → List Char → Option (List (String × JVal) × List Char)
  | 0, _ => none
  | fuel + 1, cs =>
    match skipJsonWs cs with
    | '"' :: r =>
      match jpStrBody (r.length + 1) r with
      | none => none
      | some (k, r2) =>
        match skipJsonWs r2 with
        | ':' :: r3 =>
          match jpVal fuel r3 with
          | none => none
          | some (v, r4) =>
            match skipJsonWs r4 with
            | ',' :: r5 =>
              match jpFields fuel r5 with
              | some (fs, r6) => some ((⟨k⟩, v) :: fs, r6)
              | none => none
            | '\x7d' :: r5 => some ([(⟨k⟩, v)], r5)
            | _ => none
        | _ => none
    | _ => none

end

/-- The concrete decoder: the whole input must be one JSON value
(surrounded by optional whitespace), as `json.loads` requires. -/
def jsonParse (s : String) : Option JVal :=
  match jpVal (s.data.length + 1) s.data with
  | some (v, rest) => if skipJsonWs rest = [] then some v else none
  | none => none

/-! ## Observers on action results -/

/-- The success chance the handler reported, when the turn committed. -/
def chanceOf (r : ActionRet) : Option ℚ :=
  match r.response with
  | ActionResponse.committed _ c _ _ _ _ _ => some c
  | _ => none

/-- The success/failure outcome, when the turn committed. -/
def outcomeOf (r : ActionRet) : Option Bool :=
  match r.response with
  | ActionResponse.committed b _ _ _ _ _ _ => some b
  | _ => none

/-- The session as the commit step stores it: the outcome prompt and the
narration appended to message history, activity stamped; nothing else
changes. -/
def committedSession (session : UserSession) (action nresp : String) (roll : ℚ)
    (now : Nat) : UserSession :=
  { session with
    messages := session.messages ++
      [("user", outcomePrompt action (if decide (roll < (50 : ℚ)) then "успех" else "неудача")),
       ("assistant", nresp)]
    last_active := now }

/-! ## Concrete fixtures used by witnesses and counterexamples -/

def c1session : UserSession :=
  { user_id := "u1", stats := [("Strength", 8)], world_context := "Перед вами дверь." }

def c2session : UserSession := { user_id := "u2", inventory := ["факел"] }

def c2narration : String := "Вы нашли верёвку.\nINVENTORY_ADD: верёвка"

def c3session : UserSession := { user_id := "u3" }

def c4session : UserSession := { user_id := "u4", game_over := true }

def c5session : UserSession :=
  { user_id := "u5", inventory := ["a<b"], stats := [("Сила", 8)] }

def c5save : SaveData := { user_id := "u5", inventory := ["ab"], stats := [("Сила", 8)] }

def c5good : UserSession :=
  { user_id := "w5", inventory := ["меч", "карта"], health := 90
    stats := [("Сила", 8), ("Ловкость", 7)], abilities := [("Паркур", true)]
    messages := [("assistant", "История.")], world_context := "Тёмный лес."
    universeId := some "fantasy", ruleset := some "Правила.", game_over := false }

def c6raw : SaveData := { user_id := "u6", stats := [("Сила", 21)] }

def c7text : String := "CHARACTER_DATA: \x7bnot json\x7d"

def c8session : UserSession := { user_id := "u8", world_context := "Старый лес." }

/-- The raw `SaveData` record `to_save_data` builds from a session's
fields (before validation), named for reuse in the round-trip theorems. -/
def sessionRaw (s : UserSession) : SaveData :=
  { user_id := s.user_id, character := s.character, inventory := s.inventory,
    health := s.health, stats := s.stats, abilities := s.abilities,
    world_context := s.world_context, game_over := s.game_over,
    last_active := s.last_active }

/-! ## Helper lemmas -/

theorem map_self_of_fixed {α : Type} (f : α → α) :
    ∀ l : List α, (∀ x ∈ l, f x = x) → l.map f = l
  | [], _ => rfl
  | a :: as, h => by
    simp only [List.map_cons]
    rw [h a (List.mem_cons_self a as),
      map_self_of_fixed f as (fun x hx => h x (List.mem_cons_of_mem a hx))]

theorem cleanItem_short (item : String) (h : cleanItem item = item) : item.length ≤ 50 := by
  have h2 : (cleanItem item).length ≤ 50 := by
    show ((item.data.filter (fun c => ¬ badChars.contains c)).take 50).length ≤ 50
    exact List.length_take_le _ _
  rw [h] at h2
  exact h2

theorem validated_ok_of (raw : SaveData)
    (hlen : raw.inventory.any (fun item => item.length > 100) = false)
    (hh : 0 ≤ raw.health ∧ raw.health ≤ 100)
    (hst : validate_stats raw.stats = true)
    (hmap : raw.inventory.map cleanItem = raw.inventory) :
    SaveData.validated raw = Except.ok raw := by
  unfold SaveData.validated
  rw [hlen, if_neg Bool.false_ne_true, if_neg (not_not_intro hh),
    if_neg (not_not_intro hst), hmap]

/-! ## Claims -/

/-- C3: when the validation model response, stripped and uppercased, does
not contain the affirmative token `"ДА"`, `perform_action` returns the
stripped explanation verbatim as the turn result, leaves the session
value untouched, and performs no session-store write.  The action must be
a well-formed request (non-empty, at most 500 characters), or the handler
rejects it with HTTP 400 before validation runs. -/
theorem c3_validation_rejection_pure (now : Nat) (session : UserSession)
    (action vresp nresp : String) (roll : ℚ)
    (ha : ¬ (action = "" ∨ action.length > 500))
    (hg : session.game_over = false)
    (hv : strContains (pyUpper (pyStrip vresp)) affirmativeToken = false) :
    perform_action now (some session) action vresp nresp roll =
      ⟨ActionResponse.validationRejected (pyStrip vresp), some session, []⟩ := by
  simp only [perform_action, ha, hg, hv, if_neg, ite_false, ite_true, Bool.false_eq_true,
    if_false, reduceCtorEq]

/-- C3 witness: a concrete rejected turn, via `c3_validation_rejection_pure`. -/
theorem c3_validation_rejection_witness :
    perform_action 0 (some c3session) "лететь" "Нет." "x" 10 =
      ⟨ActionResponse.validationRejected (pyStrip "Нет."), some c3session, []⟩ :=
  c3_validation_rejection_pure 0 c3session "лететь" "Нет." "x" 10 (by decide) rfl (by rfl)

/-- C4: once `game_over` is set, any well-formed action call returns the
fixed game-over response, performs zero store writes, and returns the
session value unchanged. -/
theorem c4_game_over_guard (now : Nat) (session : UserSession)
    (action vresp nresp : String) (roll : ℚ)
    (ha : ¬ (action = "" ∨ action.length > 500))
    (hg : session.game_over = true) :
    perform_action now (some session) action vresp nresp roll =
      ⟨ActionResponse.gameOverResponse gameOverMessage, some session, []⟩ := by
  simp only [perform_action, ha, hg, ite_true, ite_false, if_false]

/-- C4 witness: a concrete game-over session, via `c4_game_over_guard`. -/
theorem c4_game_over_guard_witness :
    perform_action 0 (some c4session) "идти" "ДА" "x" 10 =
      ⟨ActionResponse.gameOverResponse gameOverMessage, some c4session, []⟩ :=
  c4_game_over_guard 0 c4session "идти" "ДА" "x" 10 (by decide) rfl

/-- C1 counterexample: with stats `Strength = 8`, action "break the door"
and a passing validation, the handler's reported success chance is 50,
not the 49 the claim computes — `perform_action` hard-codes
`success_chance = 50.0` and never consults stats, keywords or a
difficulty penalty. -/
theorem c1_chance_counterexample :
    chanceOf (perform_action 1 (some c1session) "break the door" "ДА" "Дверь поддалась." 10)
        = some 50 ∧
    chanceOf (perform_action 1 (some c1session) "break the door" "ДА" "Дверь поддалась." 10)
        ≠ some 49 := by
  constructor
  · rfl
  · decide

/-- C1 (amended): on every turn that reaches the dice (well-formed action,
live session, validation response containing the affirmative token), the
computed success chance is exactly 50, for every session and every action
text; the spec's keyword/stat/difficulty formula is absent from the
handler. -/
theorem c1_chance_always_50 (now : Nat) (session : UserSession)
    (action vresp nresp : String) (roll : ℚ)
    (ha : ¬ (action = "" ∨ action.length > 500))
    (hg : session.game_over = false)
    (hv : strContains (pyUpper (pyStrip vresp)) affirmativeToken = true) :
    chanceOf (perform_action now (some session) action vresp nresp roll) = some 50 := by
  simp only [perform_action, chanceOf, ha, hg, hv, ite_true, ite_false, if_false,
    Bool.true_eq_false, Bool.false_eq_true, reduceCtorEq]

/-- C1 (amended) witness, via `c1_chance_always_50`. -/
theorem c1_chance_always_50_witness :
    chanceOf (perform_action 2 (some c1session) "break the door" "ДА" "Дверь поддалась." 70)
      = some 50 :=
  c1_chance_always_50 2 c1session "break the door" "ДА" "Дверь поддалась." 70
    (by decide) rfl (by rfl)

/-- C2 counterexample: the narration of a committed turn carries an
inventory directive for "верёвка", which `process_inventory_command`
would extract and which is not already in the inventory (so the claim
says it gets appended) — yet the session after the turn still has exactly
the old inventory: the Committing step never runs the extraction. -/
theorem c2_commit_ignores_inventory_directives :
    (process_inventory_command c2narration).2 = ["верёвка"] ∧
    "верёвка" ∉ c2session.inventory ∧
    (perform_action 1 (some c2session) "искать" "ДА" c2narration 10).session.map
        (fun s => s.inventory) = some ["факел"] ∧
    c2session.inventory = ["факел"] := by
  refine ⟨by decide, by decide, rfl, rfl⟩

/-- C2 (amended): a turn never modifies the session's inventory at all —
the handler performs no inventory-directive extraction, so in particular
adding any item (duplicate or not) never changes the inventory length. -/
theorem c2_turn_preserves_inventory (now : Nat) (sessionOpt : Option UserSession)
    (action vresp nresp : String) (roll : ℚ) :
    (perform_action now sessionOpt action vresp nresp roll).session.map (fun s => s.inventory)
      = sessionOpt.map (fun s => s.inventory) := by
  by_cases ha : action = "" ∨ action.length > 500
  · simp [perform_action, ha]
  · cases sessionOpt with
    | none => simp [perform_action, ha]
    | some session =>
      cases hg : session.game_over with
      | true => simp [perform_action, ha, hg]
      | false =>
        cases hv : strContains (pyUpper (pyStrip vresp)) affirmativeToken with
        | false => simp [perform_action, ha, hg, hv]
        | true => simp [perform_action, ha, hg, hv]

/-- C5 counterexample: a session whose stats all lie in [0,20] but whose
inventory holds the item "a<b".  Export succeeds, but the validator's
character-stripping turns the item into "ab", so the reimported session's
inventory differs from the original: the round trip does not reproduce
inventory for every session with in-range stats. -/
theorem c5_roundtrip_counterexample :
    validate_stats c5session.stats = true ∧
    UserSession.to_save_data c5session = Except.ok c5save ∧
    load_game "u5" c5save 0 =
      ⟨Except.ok (mkSessionFromSave "u5" c5save 0), [("u5", mkSessionFromSave "u5" c5save 0)]⟩ ∧
    (mkSessionFromSave "u5" c5save 0).inventory ≠ c5session.inventory := by
  refine ⟨rfl, rfl, rfl, by decide⟩

/-- C5 (amended): for every session whose stats lie in [0,20], whose
health lies in [0,100] (the data-model range; no code path ever leaves
it), and whose inventory items are fixed by the save-validator's cleaning
(at most 50 characters, none of `<>{};`), exporting and reimporting
reproduces inventory, stats, abilities, world_context, health and
game_over exactly, while message history and universe/ruleset are absent
after reimport. -/
theorem c5_save_load_roundtrip (s : UserSession) (uid : String) (now : Nat)
    (hstats : validate_stats s.stats = true)
    (hhealth : 0 ≤ s.health ∧ s.health ≤ 100)
    (hinv : ∀ item ∈ s.inventory, cleanItem item = item) :
    ∃ sd, UserSession.to_save_data s = Except.ok sd ∧
      load_game uid sd now =
        ⟨Except.ok (mkSessionFromSave uid sd now), [(uid, mkSessionFromSave uid sd now)]⟩ ∧
      (mkSessionFromSave uid sd now).inventory = s.inventory ∧
      (mkSessionFromSave uid sd now).stats = s.stats ∧
      (mkSessionFromSave uid sd now).abilities = s.abilities ∧
      (mkSessionFromSave uid sd now).world_context = s.world_context ∧
      (mkSessionFromSave uid sd now).health = s.health ∧
      (mkSessionFromSave uid sd now).game_over = s.game_over ∧
      (mkSessionFromSave uid sd now).messages = [] ∧
      (mkSessionFromSave uid sd now).universeId = none ∧
      (mkSessionFromSave uid sd now).ruleset = none := by
  have hlen : s.inventory.any (fun item => item.length > 100) = false := by
    rw [List.any_eq_false]
    intro item hmem
    have h50 := cleanItem_short item (hinv item hmem)
    simp only [decide_eq_true_eq]
    omega
  have hmap : s.inventory.map cleanItem = s.inventory :=
    map_self_of_fixed cleanItem s.inventory hinv
  have hval : SaveData.validated (sessionRaw s) = Except.ok (sessionRaw s) :=
    validated_ok_of (sessionRaw s) hlen hhealth hstats hmap
  refine ⟨sessionRaw s, hval, ?_, rfl, rfl, rfl, rfl, rfl, rfl, rfl, rfl, rfl⟩
  unfold load_game
  rw [hval]

/-- C5 (amended) witness: a concrete session round-trips, via
`c5_save_load_roundtrip`. -/
theorem c5_save_load_roundtrip_witness :
    ∃ sd, UserSession.to_save_data c5good = Except.ok sd ∧
      load_game "w5" sd 7 =
        ⟨Except.ok (mkSessionFromSave "w5" sd 7), [("w5", mkSessionFromSave "w5" sd 7)]⟩ ∧
      (mkSessionFromSave "w5" sd 7).inventory = c5good.inventory ∧
      (mkSessionFromSave "w5" sd 7).stats = c5good.stats ∧
      (mkSessionFromSave "w5" sd 7).abilities = c5good.abilities ∧
      (mkSessionFromSave "w5" sd 7).world_context = c5good.world_context ∧
      (mkSessionFromSave "w5" sd 7).health = c5good.health ∧
      (mkSessionFromSave "w5" sd 7).game_over = c5good.game_over ∧
      (mkSessionFromSave "w5" sd 7).messages = [] ∧
      (mkSessionFromSave "w5" sd 7).universeId = none ∧
      (mkSessionFromSave "w5" sd 7).ruleset = none :=
  c5_save_load_roundtrip c5good "w5" 7 (by decide) (by decide) (by decide)

/-- C6: an inbound save record whose stats mapping holds a value outside
[0,20] is always rejected by `load_game` with a validation error, and no
session is created (zero store writes). -/
theorem c6_load_rejects_bad_stats (uid : String) (raw : SaveData) (now : Nat)
    (hbad : ∃ p ∈ raw.stats, p.2 < 0 ∨ 20 < p.2) :
    (∃ e, (load_game uid raw now).result = Except.error e) ∧
      (load_game uid raw now).storeWrites = [] := by
  have hst : validate_stats raw.stats = false := by
    rw [validate_stats, List.all_eq_false]
    obtain ⟨p, hmem, hp⟩ := hbad
    refine ⟨p, hmem, ?_⟩
    simp only [Bool.and_eq_true, decide_eq_true_eq, not_and]
    omega
  have herr : ∃ e, SaveData.validated raw = Except.error e := by
    unfold SaveData.validated
    by_cases h1 : raw.inventory.any (fun item => item.length > 100) = true
    · rw [if_pos h1]; exact ⟨_, rfl⟩
    · rw [if_neg h1]
      by_cases h2 : 0 ≤ raw.health ∧ raw.health ≤ 100
      · rw [if_neg (not_not_intro h2),
          if_pos (fun hc => absurd (hst.symm.trans hc) Bool.false_ne_true)]
        exact ⟨_, rfl⟩
      · rw [if_pos h2]; exact ⟨_, rfl⟩
  obtain ⟨e, he⟩ := herr
  unfold load_game
  rw [he]
  exact ⟨⟨_, rfl⟩, rfl⟩

/-- C6 witness: a record with stats value 21, via `c6_load_rejects_bad_stats`. -/
theorem c6_load_rejects_bad_stats_witness :
    (∃ e, (load_game "u6" c6raw 0).result = Except.error e) ∧
      (load_game "u6" c6raw 0).storeWrites = [] :=
  c6_load_rejects_bad_stats "u6" c6raw 0 ⟨("Сила", 21), by decide, by decide⟩

/-- C7: for every JSON decoder (standing for the stdlib `json.loads`) and
every text in which the character-data directive matches with payload
`g1`, if decoding the stripped payload fails, the extraction returns the
two empty mappings — the decode error is caught, not propagated
(`none`, the model of an uncaught exception, is not the result). -/
theorem c7_malformed_character_data (jsonLoads : String → Option JVal) (text : String)
    (g0 g1 : List Char)
    (hmatch : searchDirective charKwLower true text.data = some (g0, g1))
    (hbad : jsonLoads (pyStrip ⟨g1⟩) = none) :
    parse_character_data_block jsonLoads text = some (JVal.jobj [], JVal.jobj []) := by
  unfold parse_character_data_block
  rw [hmatch]
  dsimp only
  rw [hbad]

/-- C7 witness: `CHARACTER_DATA: {not json}` with the concrete decoder,
via `c7_malformed_character_data`. -/
theorem c7_malformed_character_data_witness :
    parse_character_data_block jsonParse c7text = some (JVal.jobj [], JVal.jobj []) :=
  c7_malformed_character_data jsonParse c7text
    "CHARACTER_DATA: \x7bnot json\x7d".data "\x7bnot json\x7d".data (by rfl) (by rfl)

/-- C8 counterexample: a committed turn (validation passed, narration
received, session persisted) leaves `world_context` bitwise unchanged —
no summarization call replaces it.  The handler's only model interactions
are the validation reply and the narration reply, both parameters here;
no third (world-context) response exists in its signature or its body. -/
theorem c8_world_context_counterexample :
    outcomeOf (perform_action 1 (some c8session) "идти" "ДА" "Вы идёте." 10) = some true ∧
    (perform_action 1 (some c8session) "идти" "ДА" "Вы идёте." 10).storeWrites.length = 1 ∧
    (perform_action 1 (some c8session) "идти" "ДА" "Вы идёте." 10).session.map
        (fun s => s.world_context) = some "Старый лес." ∧
    c8session.world_context = "Старый лес." := by
  refine ⟨rfl, rfl, rfl, rfl⟩

/-- C8 (amended): after every committed turn the handler persists the full
session with the outcome prompt and the narration appended to message
history, but `world_context` is left exactly as it was: no separate
summarization model call is made. -/
theorem c8_commit_keeps_world_context (now : Nat) (session : UserSession)
    (action vresp nresp : String) (roll : ℚ)
    (ha : ¬ (action = "" ∨ action.length > 500))
    (hg : session.game_over = false)
    (hv : strContains (pyUpper (pyStrip vresp)) affirmativeToken = true) :
    perform_action now (some session) action vresp nresp roll =
      ⟨ActionResponse.committed (decide (roll < 50)) 50 roll
          (if decide (roll < 50) then "успех" else "неудача") nresp
          session.inventory session.health,
        some (committedSession session action nresp roll now),
        [(session.user_id, committedSession session action nresp roll now)]⟩ ∧
    (committedSession session action nresp roll now).world_context = session.world_context := by
  refine ⟨?_, rfl⟩
  simp only [perform_action, committedSession, ha, hg, hv, ite_true, ite_false, if_false,
    Bool.true_eq_false, Bool.false_eq_true, reduceCtorEq]

/-- C8 (amended) witness, via `c8_commit_keeps_world_context`. -/
theorem c8_commit_keeps_world_context_witness :
    perform_action 3 (some c8session) "идти" "ДА" "Вы идёте." 10 =
      ⟨ActionResponse.committed (decide ((10 : ℚ) < 50)) 50 10
          (if decide ((10 : ℚ) < 50) then "успех" else "неудача") "Вы идёте."
          c8session.inventory c8session.health,
        some (committedSession c8session "идти" "Вы идёте." 10 3),
        [(c8session.user_id, committedSession c8session "идти" "Вы идёте." 10 3)]⟩ ∧
    (committedSession c8session "идти" "Вы идёте." 10 3).world_context =
      c8session.world_context :=
  c8_commit_keeps_world_context 3 c8session "идти" "ДА" "Вы идёте." 10
    (by decide) rfl (by rfl)

/-- C9: the success/failure outcome of a turn is independent of the
session's stats, abilities and inventory — two sessions differing only in
those fields produce identical outcomes under the same roll and the same
model responses — and whenever a chance is reported at all it is 50:
`perform_action` uses `success_chance = 50.0` (and a hard-coded, unused
`difficulty = 5`) regardless of character state. -/
theorem c9_outcome_ignores_character_state (now : Nat) (s : UserSession)
    (st : List (String × Int)) (ab : List (String × Bool)) (inv : List String)
    (action vresp nresp : String) (roll : ℚ) :
    outcomeOf (perform_action now
        (some { s with stats := st, abilities := ab, inventory := inv })
        action vresp nresp roll)
      = outcomeOf (perform_action now (some s) action vresp nresp roll) ∧
    (chanceOf (perform_action now (some s) action vresp nresp roll) = none ∨
     chanceOf (perform_action now (some s) action vresp nresp roll) = some 50) := by
  by_cases ha : action = "" ∨ action.length > 500
  · simp [perform_action, ha, outcomeOf, chanceOf]
  · cases hg : s.game_over with
    | true => simp [perform_action, ha, hg, outcomeOf, chanceOf]
    | false =>
      cases hv : strContains (pyUpper (pyStrip vresp)) affirmativeToken with
      | false => simp [perform_action, ha, hg, hv, outcomeOf, chanceOf]
      | true => simp [perform_action, ha, hg, hv, outcomeOf, chanceOf]

/-- C10: no pipeline operation raises `game_over`: `perform_action`
returns a session with the same `game_over` as it read (for every branch,
including the commit), `_finalize_character_creation` never touches it, a
fresh session starts with `game_over = false`, and the session built by
`load_game` carries exactly the save record's `game_over` — so only
importing a record with `game_over = true` yields a game-over session. -/
theorem c10_game_over_never_raised (now : Nat) (sessionOpt : Option UserSession)
    (action vresp nresp : String) (roll : ℚ)
    (session : UserSession) (character_prompt story : String)
    (items : List String) (stats : List (String × Int)) (abilities : List (String × Bool))
    (uid : String) (sd : SaveData) :
    (perform_action now sessionOpt action vresp nresp roll).session.map (fun s => s.game_over)
        = sessionOpt.map (fun s => s.game_over) ∧
    (finalizeCharacterCreation session character_prompt story items stats abilities
        now).1.game_over = session.game_over ∧
    (newSession uid).game_over = false ∧
    (mkSessionFromSave uid sd now).game_over = sd.game_over := by
  refine ⟨?_, rfl, rfl, rfl⟩
  by_cases ha : action = "" ∨ action.length > 500
  · simp [perform_action, ha]
  · cases sessionOpt with
    | none => simp [perform_action, ha]
    | some s =>
      cases hg : s.game_over with
      | true => simp [perform_action, ha, hg]
      | false =>
        cases hv : strContains (pyUpper (pyStrip vresp)) affirmativeToken with
        | false => simp [perform_action, ha, hg, hv]
        | true => simp [perform_action, ha, hg, hv]

end RoleVerse
